import Mathlib

/-!
Shallow embedding of the Fusionbot VK-bot repository, covering the parts of
the code the specification claims talk about:

* `src/moderation.py`    — `ContentModeration.check_content` (keyword filter);
* `src/ai_system.py`     — `AISystem.get_ai_response` (ordered provider fallback);
* `src/database.py`      — `DatabaseManager` (users table, ranks, warnings,
  mute/ban, admins) with SQLite semantics made explicit;
* `src/moderation_system.py` — `ModerationSystem` (kick/ban/mute/warn with
  permission checks and warning escalation);
* `src/async_vk_bot.py`  — `_check_flood_control` (per-user rate limiting).

Python strings are Lean `String`s; Python `str.lower()` is modelled for the
alphabets actually used (ASCII and Cyrillic); timestamps are modelled as `Int`
(only ordering and differences matter to the embedded code); the SQLite store
is an association list together with an `err` flag that models the store
raising an exception on access (every `database.py` method wraps its body in
`try/except`, so an access error surfaces exactly as the `except` branch of
that method).  Logging and the moderation `blocked_count` statistics counter
are side effects with no influence on any return value and are not modelled.
-/

namespace Fusionbot

/-! ## Python string primitives -/

/-- Python `str.lower()` for a single character, restricted to the alphabets
appearing in this code base: ASCII `A`–`Z` and Cyrillic `А`–`Я`, `Ё`. -/
def pyLowerChar (c : Char) : Char :=
  if 'A' ≤ c ∧ c ≤ 'Z' then Char.ofNat (c.toNat + 32)
  else if 'А' ≤ c ∧ c ≤ 'Я' then Char.ofNat (c.toNat + 32)
  else if c = 'Ё' then 'ё'
  else c

/-- Python `str.lower()`. -/
def pyLower (s : String) : String :=
  ⟨s.data.map pyLowerChar⟩

/-- `needle` occurs as a contiguous substring of `hay` (Python `needle in hay`
for strings). -/
def listContainsSub (needle : List Char) : List Char → Bool
  | [] => needle.isEmpty
  | c :: cs => needle.isPrefixOf (c :: cs) || listContainsSub needle cs

/-- Python `w in m` on strings: substring containment. -/
def pyIn (w m : String) : Bool :=
  listContainsSub w.data m.data

/-- Python `any(word in m for word in words)`. -/
def containsAnyOf (words : List String) (m : String) : Bool :=
  words.any (fun w => pyIn w m)

/-! ## `src/moderation.py` — `ContentModeration` -/

/-- `ContentModeration.inappropriate_words`. -/
def inappropriate_words : List String :=
  ["хуй", "блядь", "пизда", "ебал", "сука", "мудак", "дебил", "дибил",
   "говно", "срать", "жопа", "пидор", "гей", "лесби", "рот ебал"]

/-- `ContentModeration.hate_speech`. -/
def hate_speech : List String :=
  ["убить", "смерть", "ненавижу", "убью", "сдохни",
   "фашист", "нацист", "расист"]

/-- `ContentModeration.spam_patterns`. -/
def spam_patterns : List String :=
  ["реклама", "купить", "продать", "скидка", "акция",
   "заработок", "деньги легко", "без вложений"]

/-- The dict returned by `ContentModeration.check_content`. -/
structure ModResult where
  allowed : Bool
  reason : Option String
  category : Option String
  response : Option String
  deriving Repr, DecidableEq

/-- Canned refusal for the inappropriate-language category. -/
def inappropriateResponse : String :=
  "Извини, не могу обсуждать такие темы. Давай поговорим о чём-то другом! Например, спроси меня про науку, технологии или попроси шутку"

/-- Canned refusal for the hate-speech category. -/
def hateSpeechResponse : String :=
  "Я не могу поддерживать такие высказывания. Давай общаться дружелюбно! Спроси меня что-то интересное"

/-- Canned refusal for the spam category. -/
def spamResponse : String :=
  "Я не обрабатываю рекламные сообщения. Давай поговорим о чём-то интересном!"

/-- `ContentModeration.check_content(message, user_id, peer_id)`.  The
`user_id`/`peer_id` arguments feed only the audit log entry; the result is
built by the `if`/`elif` chain over the lower-cased message. -/
def check_content (message : String) (_user_id _peer_id : Int) : ModResult :=
  let message_lower := pyLower message
  if containsAnyOf inappropriate_words message_lower then
    { allowed := false, reason := some "inappropriate_language",
      category := some "Неподходящий язык", response := some inappropriateResponse }
  else if containsAnyOf hate_speech message_lower then
    { allowed := false, reason := some "hate_speech",
      category := some "Язык ненависти", response := some hateSpeechResponse }
  else if containsAnyOf spam_patterns message_lower then
    { allowed := false, reason := some "spam",
      category := some "Спам/реклама", response := some spamResponse }
  else
    { allowed := true, reason := none, category := none, response := none }

/-! ## `src/ai_system.py` — `AISystem.get_ai_response`

Each `_call_*` helper catches its own exceptions and returns either a string
or `None`; `get_ai_response` then tests `if response and response.strip():`.
We therefore model the outcome of each provider call as an `Option String`
(`none` = the call raised internally / timed out / returned `None`), and the
configuration flags (`OPENROUTER_API_KEY` present, `self.groq_client`
initialised, `OPENAI_API_KEY` present, `HUGGINGFACE_API_KEY` present) as
booleans.  Every operation `get_ai_response` performs outside the provider
calls is exception-free, so the final `except` branch of the source is
unreachable and the model is a total function. -/

/-- The four AI providers in the chain of `get_ai_response`. -/
inductive Provider where
  | openRouter
  | groq
  | openai
  | huggingface
  deriving Repr, DecidableEq

/-- Position of a provider in the fixed fallback chain. -/
def Provider.idx : Provider → Nat
  | .openRouter => 0
  | .groq => 1
  | .openai => 2
  | .huggingface => 3

/-- Mocked environment for one call to `get_ai_response`: which providers are
configured and what each `_call_*` helper would return if invoked. -/
structure AIEnv where
  openrouter_key : Bool
  openrouter_resp : Option String
  groq_client : Bool
  groq_resp : Option String
  openai_key : Bool
  openai_resp : Option String
  hf_key : Bool
  hf_resp : Option String
  deriving Repr, DecidableEq

/-- Whether a provider is configured (its guard `if <key/client>:` passes). -/
def AIEnv.configured (env : AIEnv) : Provider → Bool
  | .openRouter => env.openrouter_key
  | .groq => env.groq_client
  | .openai => env.openai_key
  | .huggingface => env.hf_key

/-- What `_call_*` returns for a provider in this environment. -/
def AIEnv.resp (env : AIEnv) : Provider → Option String
  | .openRouter => env.openrouter_resp
  | .groq => env.groq_resp
  | .openai => env.openai_resp
  | .huggingface => env.hf_resp

/-- Python whitespace, as removed by `str.strip()`. -/
def isPySpace (c : Char) : Bool :=
  c = ' ' || c = '\t' || c = '\n' || c = '\r' || c = '\x0b' || c = '\x0c'

/-- Python `str.strip()`: drop leading and trailing whitespace. -/
def pyStrip (s : String) : String :=
  ⟨((s.data.dropWhile isPySpace).reverse.dropWhile isPySpace).reverse⟩

/-- Python truthiness of `response and response.strip()`: the call returned a
string that is non-empty and non-empty after stripping whitespace. -/
def respOk : Option String → Bool
  | none => false
  | some s => !s.data.isEmpty && !(pyStrip s).data.isEmpty

/-- The text a successful branch returns (`return response`). -/
def respText : Option String → String
  | none => ""
  | some s => s

/-- The fixed message returned when every provider is exhausted
(`src/ai_system.py`, the `"Все ИИ сервисы недоступны"` branch). -/
def aiUnavailableMessage : String :=
  "❌ **ОШИБКА ИИ СИСТЕМЫ**\n\nВсе внешние ИИ сервисы недоступны:\n• OpenRouter: недоступен\n• Groq: недоступен\n• OpenAI: недоступен\n• Hugging Face: недоступен\n\n**Причины:**\n• Проблемы с интернет-соединением\n• Блокировка API в вашем регионе\n• Превышен лимит запросов\n• Неверные API ключи\n\nПопробуйте позже или проверьте настройки."

/-- `AISystem.get_ai_response(message, context, user_id, peer_id)`:
moderation first, then the four providers strictly in order, then the fixed
unavailability message. -/
def get_ai_response (env : AIEnv) (message : String)
    (user_id : Int := 0) (peer_id : Int := 0) : String :=
  let moderation_result := check_content message user_id peer_id
  if moderation_result.allowed = false then
    respText moderation_result.response
  else if env.openrouter_key && respOk env.openrouter_resp then
    respText env.openrouter_resp
  else if env.groq_client && respOk env.groq_resp then
    respText env.groq_resp
  else if env.openai_key && respOk env.openai_resp then
    respText env.openai_resp
  else if env.hf_key && respOk env.hf_resp then
    respText env.hf_resp
  else
    aiUnavailableMessage

/-- The sequence of providers whose `_call_*` helper is actually invoked by
`get_ai_response`, mirroring its control flow: a provider is called iff it is
configured and no earlier configured provider returned a usable response. -/
def providersCalled (env : AIEnv) (message : String)
    (user_id : Int := 0) (peer_id : Int := 0) : List Provider :=
  let moderation_result := check_content message user_id peer_id
  if moderation_result.allowed = false then []
  else
    (if env.openrouter_key then [Provider.openRouter] else []) ++
    if env.openrouter_key && respOk env.openrouter_resp then []
    else
      (if env.groq_client then [Provider.groq] else []) ++
      if env.groq_client && respOk env.groq_resp then []
      else
        (if env.openai_key then [Provider.openai] else []) ++
        if env.openai_key && respOk env.openai_resp then []
        else
          (if env.hf_key then [Provider.huggingface] else []) ++
          if env.hf_key && respOk env.hf_resp then []
          else []

/-! ## `src/database.py` — `DatabaseManager`

One row of the `users` table with the column defaults of the `CREATE TABLE`
statement.  `banned` is the `INTEGER DEFAULT 0` column read as a boolean
(`is_banned` tests `== 1`); `mute_until` is the nullable TEXT column holding a
Unix timestamp; `join_date`/`last_activity` are the nullable TEXT timestamp
columns.  Timestamps are modelled as `Int`. -/

structure UserRow where
  first_name : String := ""
  last_name : String := ""
  experience : Int := 0
  rank_level : Nat := 1
  messages_count : Int := 0
  voice_messages : Int := 0
  mentions_count : Int := 0
  reactions_count : Int := 0
  warnings : Int := 0
  banned : Bool := false
  mute_until : Option Int := none
  join_date : Option Int := none
  last_activity : Option Int := none
  deriving Repr, DecidableEq

/-- The SQLite store: the `users` and `chat_admins` tables, plus an `err`
flag modelling the store raising an exception on access (every method of
`DatabaseManager` catches such an exception in its own `try/except`).
`chat_admins` rows are `(user_id, chat_id)`; the `is_owner` column is never
read by any modelled operation. -/
structure DBState where
  err : Bool := false
  users : List (Int × UserRow) := []
  chat_admins : List (Int × Int) := []
  deriving Repr, DecidableEq

/-- `SELECT * FROM users WHERE user_id = ?` (at most one row: primary key). -/
def DBState.lookupUser (s : DBState) (user_id : Int) : Option UserRow :=
  (s.users.find? (fun p => p.1 = user_id)).map Prod.snd

/-- `UPDATE users SET ... WHERE user_id = ?`: rewrites the matching row,
no-op when the user does not exist (SQLite updates zero rows, no error). -/
def DBState.updateUser (s : DBState) (user_id : Int) (f : UserRow → UserRow) :
    DBState :=
  { s with users := s.users.map (fun p => if p.1 = user_id then (p.1, f p.2) else p) }

/-- `DatabaseManager.get_user`: the row as a dict, `None` when absent or when
the store errors (the `except` branch returns `None`). -/
def get_user (s : DBState) (user_id : Int) : Option UserRow :=
  if s.err then none else s.lookupUser user_id

/-- `DatabaseManager.create_or_update_user`, with SQLite `INSERT OR REPLACE`
semantics: the old row (if any) is deleted and a fresh row is inserted with
only `user_id, first_name, last_name, join_date, last_activity` supplied —
every other column takes its `CREATE TABLE` default.  `join_date` is
`COALESCE((SELECT join_date FROM users WHERE user_id = ?), current_time)`.
Returns the new state and `self.get_user(user_id)`; the `except` branch
returns `None` with no change. -/
def create_or_update_user (s : DBState) (user_id : Int)
    (first_name last_name : String) (current_time : Int) :
    DBState × Option UserRow :=
  if s.err then (s, none)
  else
    let old_join : Option Int := (s.lookupUser user_id).bind (fun u => u.join_date)
    let row : UserRow :=
      { first_name := first_name, last_name := last_name,
        join_date := some (old_join.getD current_time),
        last_activity := some current_time }
    let s' : DBState :=
      if s.users.any (fun p => p.1 = user_id) then
        { s with users := s.users.map (fun p => if p.1 = user_id then (p.1, row) else p) }
      else
        { s with users := s.users ++ [(user_id, row)] }
    (s', get_user s' user_id)

/-- `DatabaseManager.is_admin`: `SELECT 1 FROM chat_admins WHERE user_id = ?
AND chat_id = ?` is non-empty; `False` on a store error. -/
def is_admin (s : DBState) (user_id chat_id : Int) : Bool :=
  if s.err then false else s.chat_admins.contains (user_id, chat_id)

/-- Static per-level rank data of `DatabaseManager.get_rank_info`. -/
structure RankInfo where
  name : String
  emoji : String
  exp_required : Int
  permissions : List String
  deriving Repr, DecidableEq

/-- `DatabaseManager.get_rank_info(rank_level)` — the `ranks` dict with its
`.get(..., default)` fallback to the level-1 entry. -/
def get_rank_info : Nat → RankInfo
  | 1 => ⟨"🥉 Новичок", "🥉", 0, ["chat"]⟩
  | 2 => ⟨"🏃 Активный", "🏃", 100, ["chat", "voice"]⟩
  | 3 => ⟨"💬 Болтун", "💬", 300, ["chat", "voice", "reactions"]⟩
  | 4 => ⟨"🎭 Шутник", "🎭", 600, ["chat", "voice", "reactions", "jokes"]⟩
  | 5 => ⟨"🎯 Меткий", "🎯", 1000, ["chat", "voice", "reactions", "jokes", "games"]⟩
  | 6 => ⟨"⭐ Звезда", "⭐", 1500, ["chat", "voice", "reactions", "jokes", "games", "mentions"]⟩
  | 7 => ⟨"🔥 Легенда", "🔥", 2500, ["chat", "voice", "reactions", "jokes", "games", "mentions", "moderate"]⟩
  | 8 => ⟨"👑 Король", "👑", 4000, ["chat", "voice", "reactions", "jokes", "games", "mentions", "moderate", "warn"]⟩
  | 9 => ⟨"💎 Алмаз", "💎", 6000, ["chat", "voice", "reactions", "jokes", "games", "mentions", "moderate", "warn", "mute"]⟩
  | 10 => ⟨"🚀 Космос", "🚀", 10000, ["chat", "voice", "reactions", "jokes", "games", "mentions", "moderate", "warn", "mute", "kick", "ban"]⟩
  | _ => ⟨"🥉 Новичок", "🥉", 0, ["chat"]⟩

/-- The descending scan `for rank_level in range(10, 0, -1): if exp >=
rank_info['exp_required']: ...; break`, shared by `get_user_rank` and
`update_rank`: the first level from 10 down whose threshold is satisfied,
defaulting to the initial value 1. -/
def computeLevel (exp : Int) : Nat :=
  (([10, 9, 8, 7, 6, 5, 4, 3, 2, 1].find?
      (fun rank_level => decide ((get_rank_info rank_level).exp_required ≤ exp))).getD 1)

/-- The dict returned by `DatabaseManager.get_user_rank`.  When the user is
missing (or the store errs) the source returns a default dict that has **no**
`permissions` key; `permissions = none` models the absent key (callers read
it with `.get('permissions', [])`). -/
structure UserRankResult where
  rank : String
  level : Nat
  experience : Int
  next_level_exp : Int := 0
  permissions : Option (List String) := none
  deriving Repr, DecidableEq

/-- `DatabaseManager.get_user_rank`. -/
def get_user_rank (s : DBState) (user_id : Int) : UserRankResult :=
  match get_user s user_id with
  | none => { rank := "🥉 Новичок", level := 1, experience := 0 }
  | some user =>
    let exp := user.experience
    let level := computeLevel exp
    let rank_info := get_rank_info level
    { rank := rank_info.name, level := level, experience := exp,
      next_level_exp := if level < 10 then (get_rank_info (level + 1)).exp_required else 0,
      permissions := some rank_info.permissions }

/-- `DatabaseManager.add_experience`: `UPDATE users SET experience =
experience + ? WHERE user_id = ?`; silently absorbed on a store error. -/
def add_experience (s : DBState) (user_id : Int) (exp : Int) : DBState :=
  if s.err then s
  else s.updateUser user_id (fun u => { u with experience := u.experience + exp })

/-- `DatabaseManager.update_rank`: recompute the level from the stored
experience and write it back iff it changed; returns whether it changed
(`False` from the `except` branch, and the `None` early return on a missing
user is folded into `false` — no caller in the modelled code reads it). -/
def update_rank (s : DBState) (user_id : Int) : DBState × Bool :=
  if s.err then (s, false)
  else
    match s.lookupUser user_id with
    | none => (s, false)
    | some user =>
      let new_level := computeLevel user.experience
      if new_level ≠ user.rank_level then
        (s.updateUser user_id (fun u => { u with rank_level := new_level }), true)
      else (s, false)

/-- `DatabaseManager.mute_user`: `mute_until = now + duration_minutes * 60`.
Returns `True` even when the user row is absent (the `UPDATE` touches zero
rows without error); `False` only from the `except` branch. -/
def mute_user_db (s : DBState) (user_id : Int) (duration_minutes : Int)
    (now : Int) : DBState × Bool :=
  if s.err then (s, false)
  else (s.updateUser user_id
          (fun u => { u with mute_until := some (now + duration_minutes * 60) }), true)

/-- `DatabaseManager.unmute_user`: `mute_until = NULL`. -/
def unmute_user (s : DBState) (user_id : Int) : DBState × Bool :=
  if s.err then (s, false)
  else (s.updateUser user_id (fun u => { u with mute_until := none }), true)

/-- `DatabaseManager.is_muted`, including its lazy-expiry write. -/
def is_muted (s : DBState) (user_id : Int) (now : Int) : Bool × DBState :=
  match get_user s user_id with
  | none => (false, s)
  | some user =>
    match user.mute_until with
    | none => (false, s)
    | some mute_until =>
      if now > mute_until then (false, (unmute_user s user_id).1)
      else (true, s)

/-- `DatabaseManager.ban_user`: `banned = 1`. -/
def ban_user_db (s : DBState) (user_id : Int) : DBState × Bool :=
  if s.err then (s, false)
  else (s.updateUser user_id (fun u => { u with banned := true }), true)

/-- `DatabaseManager.is_banned`. -/
def is_banned (s : DBState) (user_id : Int) : Bool :=
  match get_user s user_id with
  | none => false
  | some user => user.banned

/-- `DatabaseManager.add_warning`: `warnings = warnings + 1`. -/
def add_warning (s : DBState) (user_id : Int) : DBState × Bool :=
  if s.err then (s, false)
  else (s.updateUser user_id (fun u => { u with warnings := u.warnings + 1 }), true)

/-- `DatabaseManager.get_warnings`. -/
def get_warnings (s : DBState) (user_id : Int) : Int :=
  match get_user s user_id with
  | none => 0
  | some user => user.warnings

/-! ## `src/moderation_system.py` — `ModerationSystem`

The VK API call inside `kick_user` is an external collaborator; its outcome
(`data['response'] == 1`) is modelled by the boolean `kickApiOk` and the error
message extracted from a failed response by `kickApiErrMsg` (the source
defaults it to `'Неизвестная ошибка'`).  Every state mutation goes through the
global `db`, so each action maps a `DBState` to a result dict plus the new
`DBState`. -/

/-- The `{"success": ..., "message": ...}` dict the moderation actions
return. -/
structure ActionResult where
  success : Bool
  message : String
  deriving Repr, DecidableEq

/-- `ModerationSystem._check_admin_permissions(user_id, peer_id, action)`. -/
def check_admin_permissions (s : DBState) (user_id peer_id : Int)
    (action : String) : Bool :=
  if is_admin s user_id (peer_id - 2000000000) then true
  else
    let permissions := (get_user_rank s user_id).permissions.getD []
    if action = "kick" ∧ permissions.contains "kick" then true
    else if action = "ban" ∧ permissions.contains "ban" then true
    else if action = "mute" ∧ permissions.contains "mute" then true
    else if action = "warn" ∧ permissions.contains "warn" then true
    else if action = "moderate" ∧ permissions.contains "moderate" then true
    else false

/-- `ModerationSystem.kick_user(peer_id, user_id, admin_id)`.
`_clear_user_messages` only logs and is omitted. -/
def kick_user (kickApiOk : Bool) (kickApiErrMsg : String) (s : DBState)
    (peer_id user_id admin_id : Int) : ActionResult × DBState :=
  if ¬check_admin_permissions s admin_id peer_id "kick" then
    (⟨false, "❌ У вас нет прав для кика пользователей"⟩, s)
  else if is_admin s user_id (peer_id - 2000000000) then
    (⟨false, "❌ Нельзя кикнуть администратора"⟩, s)
  else if kickApiOk then
    (⟨true, "✅ Пользователь успешно исключен из беседы"⟩,
     add_experience s admin_id 10)
  else
    (⟨false, "❌ Ошибка кика: " ++ kickApiErrMsg⟩, s)

/-- `ModerationSystem.ban_user(peer_id, user_id, admin_id, reason)`. -/
def ban_user (kickApiOk : Bool) (kickApiErrMsg : String) (s : DBState)
    (peer_id user_id admin_id : Int) (reason : String) :
    ActionResult × DBState :=
  if ¬check_admin_permissions s admin_id peer_id "ban" then
    (⟨false, "❌ У вас нет прав для бана пользователей"⟩, s)
  else if is_admin s user_id (peer_id - 2000000000) then
    (⟨false, "❌ Нельзя забанить администратора"⟩, s)
  else
    match ban_user_db s user_id with
    | (s1, true) =>
      let (kick_result, s2) := kick_user kickApiOk kickApiErrMsg s1 peer_id user_id admin_id
      if kick_result.success then
        (⟨true, "✅ Пользователь забанен и исключен из беседы. Причина: " ++ reason⟩,
         add_experience s2 admin_id 20)
      else
        (⟨true, "✅ Пользователь забанен (но не удалось исключить из беседы). Причина: " ++ reason⟩,
         s2)
    | (s1, false) => (⟨false, "❌ Ошибка при бане пользователя"⟩, s1)

/-- `ModerationSystem.mute_user(peer_id, user_id, admin_id, duration_minutes,
reason)` (named `mute_user_sys` to keep it apart from
`DatabaseManager.mute_user`, embedded above as `mute_user_db`). -/
def mute_user_sys (s : DBState) (peer_id user_id admin_id : Int)
    (duration_minutes : Int) (reason : String) (now : Int) :
    ActionResult × DBState :=
  if ¬check_admin_permissions s admin_id peer_id "mute" then
    (⟨false, "❌ У вас нет прав для мута пользователей"⟩, s)
  else if is_admin s user_id (peer_id - 2000000000) then
    (⟨false, "❌ Нельзя замутить администратора"⟩, s)
  else
    match mute_user_db s user_id duration_minutes now with
    | (s1, true) =>
      (⟨true, "✅ Пользователь замучен на " ++ toString duration_minutes ++
              " минут. Причина: " ++ reason⟩,
       add_experience s1 admin_id 5)
    | (s1, false) => (⟨false, "❌ Ошибка при муте пользователя"⟩, s1)

/-- `ModerationSystem.warn_user(peer_id, user_id, admin_id, reason)`:
increment the warning counter, award the admin 3 experience, then run the
escalation chain `if warnings >= 3: ... elif warnings >= 5: ... else: ...`
exactly as written in the source. -/
def warn_user (kickApiOk : Bool) (kickApiErrMsg : String) (s : DBState)
    (peer_id user_id admin_id : Int) (reason : String) (now : Int) :
    ActionResult × DBState :=
  if ¬check_admin_permissions s admin_id peer_id "warn" then
    (⟨false, "❌ У вас нет прав для выдачи предупреждений"⟩, s)
  else
    match add_warning s user_id with
    | (s1, true) =>
      let warnings := get_warnings s1 user_id
      let s2 := add_experience s1 admin_id 3
      if warnings ≥ 3 then
        let s3 := (mute_user_db s2 user_id 30 now).1
        (⟨true, "⚠️ Предупреждение выдано (" ++ toString warnings ++
                "/3). Автомут на 30 минут! Причина: " ++ reason⟩, s3)
      else if warnings ≥ 5 then
        let (_, s3) := ban_user kickApiOk kickApiErrMsg s2 peer_id user_id admin_id
          ("Автобан за " ++ toString warnings ++ " предупреждений")
        (⟨true, "⚠️ Предупреждение выдано (" ++ toString warnings ++
                "/5). АВТОБАН! Причина: " ++ reason⟩, s3)
      else
        (⟨true, "⚠️ Предупреждение выдано (" ++ toString warnings ++
                "/5). Причина: " ++ reason⟩, s2)
    | (s1, false) => (⟨false, "❌ Ошибка при выдаче предупреждения"⟩, s1)

/-! ## `src/async_vk_bot.py` — `_check_flood_control`

`self.user_last_message` is a `Dict[int, float]`; `self.config.flood_limit`
defaults to `3` (seconds).  Times are modelled as `Int`. -/

/-- The `user_last_message` dictionary. -/
structure FloodState where
  user_last_message : Int → Option Int
  deriving Inhabited

/-- `AsyncVKBot._check_flood_control(user_id)` at time `current_time` with
flood window `flood_limit`: returns the boolean result and the updated
state. -/
def check_flood_control (flood_limit : Int) (s : FloodState)
    (user_id current_time : Int) : Bool × FloodState :=
  match s.user_last_message user_id with
  | some last =>
    if current_time - last < flood_limit then (false, s)
    else
      (true, ⟨fun k => if k = user_id then some current_time else s.user_last_message k⟩)
  | none =>
    (true, ⟨fun k => if k = user_id then some current_time else s.user_last_message k⟩)

/-! ## Shared lemmas about `check_content` -/

/-- If an inappropriate-language keyword matches, the first branch of the
`if`/`elif` chain fires. -/
lemma check_content_inapp (message : String) (uid pid : Int)
    (h : containsAnyOf inappropriate_words (pyLower message) = true) :
    check_content message uid pid =
      ⟨false, some "inappropriate_language", some "Неподходящий язык",
       some inappropriateResponse⟩ := by
  simp [check_content, h]

/-- If no inappropriate-language keyword but a hate-speech keyword matches,
the second branch fires. -/
lemma check_content_hate (message : String) (uid pid : Int)
    (h1 : containsAnyOf inappropriate_words (pyLower message) = false)
    (h2 : containsAnyOf hate_speech (pyLower message) = true) :
    check_content message uid pid =
      ⟨false, some "hate_speech", some "Язык ненависти", some hateSpeechResponse⟩ := by
  simp [check_content, h1, h2]

/-- If only a spam keyword matches, the third branch fires. -/
lemma check_content_spam (message : String) (uid pid : Int)
    (h1 : containsAnyOf inappropriate_words (pyLower message) = false)
    (h2 : containsAnyOf hate_speech (pyLower message) = false)
    (h3 : containsAnyOf spam_patterns (pyLower message) = true) :
    check_content message uid pid =
      ⟨false, some "spam", some "Спам/реклама", some spamResponse⟩ := by
  simp [check_content, h1, h2, h3]

/-- If no keyword of any category matches, the message is allowed. -/
lemma check_content_clean (message : String) (uid pid : Int)
    (h1 : containsAnyOf inappropriate_words (pyLower message) = false)
    (h2 : containsAnyOf hate_speech (pyLower message) = false)
    (h3 : containsAnyOf spam_patterns (pyLower message) = false) :
    check_content message uid pid = ⟨true, none, none, none⟩ := by
  simp [check_content, h1, h2, h3]

/-- A blocked message always carries one of the three canned refusals. -/
lemma check_content_blocked_response (message : String) (uid pid : Int)
    (h : (check_content message uid pid).allowed = false) :
    (check_content message uid pid).response = some inappropriateResponse ∨
    (check_content message uid pid).response = some hateSpeechResponse ∨
    (check_content message uid pid).response = some spamResponse := by
  simp only [check_content] at h ⊢
  split_ifs at h ⊢ <;> simp_all

/-- A provider response that passes the `if response and response.strip():`
test is a non-empty string. -/
lemma respText_ne_empty (r : Option String) (h : respOk r = true) : respText r ≠ "" := by
  cases r with
  | none => simp [respOk] at h
  | some s =>
    simp only [respOk, Bool.and_eq_true] at h
    intro hs
    simp only [respText] at hs
    rw [hs] at h
    exact absurd h.1 (by decide)

/-- The providers actually invoked always form an order-preserving
subsequence of the fixed chain OpenRouter → Groq → OpenAI → Hugging Face. -/
lemma providersCalled_sublist (env : AIEnv) (message : String) (uid pid : Int) :
    (providersCalled env message uid pid).Sublist
      [Provider.openRouter, Provider.groq, Provider.openai, Provider.huggingface] := by
  simp only [providersCalled]
  split_ifs <;> simp_all

/-! ## Claim theorems: content moderation -/

/-- C7: `check_content` lower-cases the input and tests the three keyword
categories in the fixed priority order inappropriate language → hate speech →
spam; the first category with a substring match wins and fixes the reported
reason/category/canned refusal; when no category matches — in particular for
the empty string — the decision is `allowed` with no category. -/
theorem check_content_priority (message : String) (user_id peer_id : Int) :
    (containsAnyOf inappropriate_words (pyLower message) = true →
      check_content message user_id peer_id =
        ⟨false, some "inappropriate_language", some "Неподходящий язык",
         some inappropriateResponse⟩) ∧
    (containsAnyOf inappropriate_words (pyLower message) = false →
      containsAnyOf hate_speech (pyLower message) = true →
      check_content message user_id peer_id =
        ⟨false, some "hate_speech", some "Язык ненависти", some hateSpeechResponse⟩) ∧
    (containsAnyOf inappropriate_words (pyLower message) = false →
      containsAnyOf hate_speech (pyLower message) = false →
      containsAnyOf spam_patterns (pyLower message) = true →
      check_content message user_id peer_id =
        ⟨false, some "spam", some "Спам/реклама", some spamResponse⟩) ∧
    (containsAnyOf inappropriate_words (pyLower message) = false →
      containsAnyOf hate_speech (pyLower message) = false →
      containsAnyOf spam_patterns (pyLower message) = false →
      check_content message user_id peer_id = ⟨true, none, none, none⟩) ∧
    check_content "" user_id peer_id = ⟨true, none, none, none⟩ :=
  ⟨check_content_inapp message user_id peer_id,
   check_content_hate message user_id peer_id,
   check_content_spam message user_id peer_id,
   check_content_clean message user_id peer_id,
   check_content_clean "" user_id peer_id (by decide) (by decide) (by decide)⟩

/-- Witness for C7 at concrete inputs: a hate-speech message is blocked with
the hate-speech category, a harmless greeting is allowed. -/
theorem check_content_priority_witness :
    check_content "ненавижу рекламу" 0 0 =
      ⟨false, some "hate_speech", some "Язык ненависти", some hateSpeechResponse⟩ ∧
    check_content "привет" 0 0 = ⟨true, none, none, none⟩ :=
  ⟨(check_content_priority "ненавижу рекламу" 0 0).2.1 (by decide) (by decide),
   (check_content_priority "привет" 0 0).2.2.2.1 (by decide) (by decide) (by decide)⟩

/-- C5: any message containing a configured keyword (matched against the
lower-cased text) is rejected by `check_content`, the reported category is the
category of a contained keyword, `get_ai_response` returns that category's
canned refusal, and no AI provider is invoked. -/
theorem moderation_rejects_without_provider_call (env : AIEnv)
    (message : String) (user_id peer_id : Int)
    (h : containsAnyOf (inappropriate_words ++ hate_speech ++ spam_patterns)
          (pyLower message) = true) :
    (check_content message user_id peer_id).allowed = false ∧
    providersCalled env message user_id peer_id = [] ∧
    ((containsAnyOf inappropriate_words (pyLower message) = true ∧
      (check_content message user_id peer_id).category = some "Неподходящий язык" ∧
      get_ai_response env message user_id peer_id = inappropriateResponse) ∨
     (containsAnyOf hate_speech (pyLower message) = true ∧
      (check_content message user_id peer_id).category = some "Язык ненависти" ∧
      get_ai_response env message user_id peer_id = hateSpeechResponse) ∨
     (containsAnyOf spam_patterns (pyLower message) = true ∧
      (check_content message user_id peer_id).category = some "Спам/реклама" ∧
      get_ai_response env message user_id peer_id = spamResponse)) := by
  by_cases hI : containsAnyOf inappropriate_words (pyLower message) = true
  · have hc := check_content_inapp message user_id peer_id hI
    refine ⟨by simp [hc], by simp [providersCalled, hc], Or.inl ⟨hI, by simp [hc], ?_⟩⟩
    simp [get_ai_response, hc, respText]
  · simp only [Bool.not_eq_true] at hI
    by_cases hH : containsAnyOf hate_speech (pyLower message) = true
    · have hc := check_content_hate message user_id peer_id hI hH
      refine ⟨by simp [hc], by simp [providersCalled, hc],
        Or.inr (Or.inl ⟨hH, by simp [hc], ?_⟩)⟩
      simp [get_ai_response, hc, respText]
    · simp only [Bool.not_eq_true] at hH
      have hS : containsAnyOf spam_patterns (pyLower message) = true := by
        simp only [containsAnyOf, List.any_append, Bool.or_eq_true] at h
        rcases h with (h | h) | h
        · rw [show (inappropriate_words.any fun w => pyIn w (pyLower message)) = false from hI] at h
          exact absurd h (by decide)
        · rw [show (hate_speech.any fun w => pyIn w (pyLower message)) = false from hH] at h
          exact absurd h (by decide)
        · exact h
      have hc := check_content_spam message user_id peer_id hI hH hS
      refine ⟨by simp [hc], by simp [providersCalled, hc],
        Or.inr (Or.inr ⟨hS, by simp [hc], ?_⟩)⟩
      simp [get_ai_response, hc, respText]

/-- Witness for C5 at a concrete input: "реклама" is blocked as spam and the
resolver answers with the spam refusal calling no provider, even though a
provider is configured and would succeed. -/
theorem moderation_rejects_witness :
    (check_content "реклама" 0 0).allowed = false ∧
    providersCalled ⟨true, some "ответ", false, none, false, none, false, none⟩
      "реклама" 0 0 = [] ∧
    get_ai_response ⟨true, some "ответ", false, none, false, none, false, none⟩
      "реклама" 0 0 = spamResponse := by
  have h := moderation_rejects_without_provider_call
    ⟨true, some "ответ", false, none, false, none, false, none⟩ "реклама" 0 0 (by decide)
  refine ⟨h.1, h.2.1, ?_⟩
  rcases h.2.2 with ⟨hw, _, _⟩ | ⟨hw, _, _⟩ | ⟨_, _, hr⟩
  · exact absurd hw (by decide)
  · exact absurd hw (by decide)
  · exact hr

/-! ## Claim theorems: AI provider chain -/

/-- Counterexample for C3 as stated: with no provider configured (so every
configured provider vacuously fails), the message "реклама" does **not**
produce the unavailability message — the moderation filter answers first with
the spam refusal. -/
theorem ai_totality_counterexample :
    ((⟨false, none, false, none, false, none, false, none⟩ : AIEnv).configured
        Provider.openRouter = false ∧
     (⟨false, none, false, none, false, none, false, none⟩ : AIEnv).configured
        Provider.groq = false ∧
     (⟨false, none, false, none, false, none, false, none⟩ : AIEnv).configured
        Provider.openai = false ∧
     (⟨false, none, false, none, false, none, false, none⟩ : AIEnv).configured
        Provider.huggingface = false) ∧
    get_ai_response ⟨false, none, false, none, false, none, false, none⟩
      "реклама" 0 0 = spamResponse ∧
    get_ai_response ⟨false, none, false, none, false, none, false, none⟩
      "реклама" 0 0 ≠ aiUnavailableMessage := by
  decide

/-- C3 (amended): for every message that passes the moderation check, if every
configured provider fails or returns empty text then `get_ai_response` returns
the fixed unavailability message; and for every input (moderated or not) the
result is never the empty string.  The embedded function is total, so no
exception reaches the caller. -/
theorem ai_resolver_totality (env : AIEnv) (message : String) (user_id peer_id : Int) :
    ((check_content message user_id peer_id).allowed = true →
      (∀ p : Provider, (env.configured p && respOk (env.resp p)) = false) →
      get_ai_response env message user_id peer_id = aiUnavailableMessage) ∧
    get_ai_response env message user_id peer_id ≠ "" := by
  constructor
  · intro hallow hfail
    have h1 : (env.openrouter_key && respOk env.openrouter_resp) = false := hfail .openRouter
    have h2 : (env.groq_client && respOk env.groq_resp) = false := hfail .groq
    have h3 : (env.openai_key && respOk env.openai_resp) = false := hfail .openai
    have h4 : (env.hf_key && respOk env.hf_resp) = false := hfail .huggingface
    simp [get_ai_response, hallow, h1, h2, h3, h4]
  · simp only [get_ai_response]
    split_ifs with hm h1 h2 h3 h4
    · rcases check_content_blocked_response message user_id peer_id hm with h | h | h <;>
        simp [h, respText] <;> decide
    · exact respText_ne_empty _ (by simp only [Bool.and_eq_true] at h1; exact h1.2)
    · exact respText_ne_empty _ (by simp only [Bool.and_eq_true] at h2; exact h2.2)
    · exact respText_ne_empty _ (by simp only [Bool.and_eq_true] at h3; exact h3.2)
    · exact respText_ne_empty _ (by simp only [Bool.and_eq_true] at h4; exact h4.2)
    · decide

/-- Witness for C3 (amended) at a concrete input: OpenRouter configured but
failing, Groq configured but returning the empty string, the rest absent. -/
theorem ai_resolver_totality_witness :
    get_ai_response ⟨true, none, true, some "", false, none, false, none⟩
      "привет" 0 0 = aiUnavailableMessage ∧
    get_ai_response ⟨true, none, true, some "", false, none, false, none⟩
      "привет" 0 0 ≠ "" :=
  ⟨(ai_resolver_totality ⟨true, none, true, some "", false, none, false, none⟩
      "привет" 0 0).1 (by decide) (fun p => by cases p <;> decide),
   (ai_resolver_totality ⟨true, none, true, some "", false, none, false, none⟩
      "привет" 0 0).2⟩

/-- Counterexample for C4 as stated: with OpenRouter failing and Groq the
first provider that would yield the non-empty "X", the input "реклама" does
**not** get "X" — moderation rejects it first, so the resolver's answer is the
spam refusal for this input. -/
theorem ai_chain_counterexample :
    ((⟨true, none, true, some "X", true, some "Y", false, none⟩ : AIEnv).configured
        Provider.groq &&
      respOk ((⟨true, none, true, some "X", true, some "Y", false, none⟩ : AIEnv).resp
        Provider.groq)) = true ∧
    get_ai_response ⟨true, none, true, some "X", true, some "Y", false, none⟩
      "реклама" 0 0 = spamResponse ∧
    spamResponse ≠ "X" := by
  decide

/-- C4 (amended): for every message that passes the moderation check, the
providers are tried strictly in the fixed order OpenRouter → Groq → OpenAI →
Hugging Face; the resolver returns the text of the first configured provider
whose response is non-empty, that provider is invoked, no provider after it
is invoked, and the invocation sequence is always an order-preserving
subsequence of the fixed chain. -/
theorem ai_chain_first_success (env : AIEnv) (message : String) (user_id peer_id : Int)
    (p : Provider)
    (hallow : (check_content message user_id peer_id).allowed = true)
    (hp : (env.configured p && respOk (env.resp p)) = true)
    (hfirst : ∀ q : Provider, q.idx < p.idx →
      (env.configured q && respOk (env.resp q)) = false) :
    get_ai_response env message user_id peer_id = respText (env.resp p) ∧
    p ∈ providersCalled env message user_id peer_id ∧
    (∀ q : Provider, p.idx < q.idx → q ∉ providersCalled env message user_id peer_id) ∧
    (providersCalled env message user_id peer_id).Sublist
      [Provider.openRouter, Provider.groq, Provider.openai, Provider.huggingface] := by
  have core : get_ai_response env message user_id peer_id = respText (env.resp p) ∧
      p ∈ providersCalled env message user_id peer_id ∧
      (∀ q : Provider, p.idx < q.idx →
        q ∉ providersCalled env message user_id peer_id) := ?_
  · exact ⟨core.1, core.2.1, core.2.2,
      providersCalled_sublist env message user_id peer_id⟩
  cases p with
  | openRouter =>
    simp only [AIEnv.configured, AIEnv.resp, Bool.and_eq_true] at hp
    obtain ⟨hk, hr⟩ := hp
    refine ⟨by simp [get_ai_response, AIEnv.resp, hallow, hk, hr], ?_, ?_⟩
    · simp [providersCalled, hallow, hk, hr]
    · intro q hq
      cases q <;> simp [Provider.idx] at hq ⊢ <;>
        simp [providersCalled, hallow, hk, hr]
  | groq =>
    simp only [AIEnv.configured, AIEnv.resp, Bool.and_eq_true] at hp
    obtain ⟨hk, hr⟩ := hp
    have hOR : (env.openrouter_key && respOk env.openrouter_resp) = false :=
      hfirst .openRouter (by decide)
    refine ⟨by simp [get_ai_response, AIEnv.resp, hallow, hk, hr, hOR], ?_, ?_⟩
    · simp [providersCalled, hallow, hk, hr, hOR]
    · intro q hq
      cases q <;> simp [Provider.idx] at hq ⊢ <;>
        simp [providersCalled, hallow, hk, hr, hOR]
  | openai =>
    simp only [AIEnv.configured, AIEnv.resp, Bool.and_eq_true] at hp
    obtain ⟨hk, hr⟩ := hp
    have hOR : (env.openrouter_key && respOk env.openrouter_resp) = false :=
      hfirst .openRouter (by decide)
    have hGR : (env.groq_client && respOk env.groq_resp) = false :=
      hfirst .groq (by decide)
    refine ⟨by simp [get_ai_response, AIEnv.resp, hallow, hk, hr, hOR, hGR], ?_, ?_⟩
    · simp [providersCalled, hallow, hk, hr, hOR, hGR]
    · intro q hq
      cases q <;> simp [Provider.idx] at hq ⊢
      simp [providersCalled, hallow, hk, hr, hOR, hGR]
  | huggingface =>
    simp only [AIEnv.configured, AIEnv.resp, Bool.and_eq_true] at hp
    obtain ⟨hk, hr⟩ := hp
    have hOR : (env.openrouter_key && respOk env.openrouter_resp) = false :=
      hfirst .openRouter (by decide)
    have hGR : (env.groq_client && respOk env.groq_resp) = false :=
      hfirst .groq (by decide)
    have hOA : (env.openai_key && respOk env.openai_resp) = false :=
      hfirst .openai (by decide)
    refine ⟨by simp [get_ai_response, AIEnv.resp, hallow, hk, hr, hOR, hGR, hOA], ?_, ?_⟩
    · simp [providersCalled, hallow, hk, hr, hOR, hGR, hOA]
    · intro q hq
      cases q <;> simp [Provider.idx] at hq ⊢

/-- Witness for C4 (amended): the spec's own mock — provider A (OpenRouter)
fails, provider B (Groq) succeeds with "X", provider C (OpenAI) is configured
— yields "X", and OpenAI is never invoked. -/
theorem ai_chain_first_success_witness :
    get_ai_response ⟨true, none, true, some "X", true, some "Y", false, none⟩
      "привет" 0 0 = respText (some "X") ∧
    Provider.groq ∈ providersCalled
      ⟨true, none, true, some "X", true, some "Y", false, none⟩ "привет" 0 0 ∧
    Provider.openai ∉ providersCalled
      ⟨true, none, true, some "X", true, some "Y", false, none⟩ "привет" 0 0 := by
  have h := ai_chain_first_success
    ⟨true, none, true, some "X", true, some "Y", false, none⟩ "привет" 0 0
    Provider.groq (by decide) (by decide)
    (by intro q hq; cases q
        · decide
        · simp [Provider.idx] at hq
        · simp [Provider.idx] at hq
        · simp [Provider.idx] at hq)
  exact ⟨h.1, h.2.1, h.2.2.1 Provider.openai (by decide)⟩

/-! ## Claim theorems: moderation actions, warning escalation, store errors -/

/-- Concrete warn-escalation scenario: target user `200` (no warnings),
admin `100` holding a conversation-admin grant for chat `1`
(peer `2000000001`). -/
def warnScenarioInit : DBState :=
  { users := [(200, {}), (100, {})], chat_admins := [(100, 1)] }

/-- One application of `warn_user` by admin `100` against user `200` at
time `1000`, keeping the resulting state. -/
def warnScenarioStep (s : DBState) : DBState :=
  (warn_user true "Неизвестная ошибка" s 2000000001 200 100 "" 1000).2

/-- C1: evaluation of the warn-escalation chain on a previously unwarned
user.  Two warnings cause no automatic action, the third leaves an active
30-minute mute — but the fifth warning leaves the user muted and **not**
banned: the `elif warnings >= 5` auto-ban branch of `warn_user` is
unreachable because `warnings >= 3` is tested first, so the claimed ban at
the fifth warning never happens. -/
theorem warn_escalation_fifth_warning_mutes_not_bans :
    ((warnScenarioStep^[2] warnScenarioInit).lookupUser 200).map
        (fun u => (u.warnings, u.banned, u.mute_until)) = some (2, false, none) ∧
    (is_muted (warnScenarioStep^[3] warnScenarioInit) 200 1000).1 = true ∧
    ((warnScenarioStep^[3] warnScenarioInit).lookupUser 200).map
        (fun u => u.mute_until) = some (some 2800) ∧
    ((warnScenarioStep^[5] warnScenarioInit).lookupUser 200).map
        (fun u => (u.warnings, u.banned)) = some (5, false) := by
  decide

/-- C2: evaluation of `create_or_update_user` on an already-known user with
accumulated experience 50 and 2 warnings: the SQLite `INSERT OR REPLACE`
replaces the whole row, so the original join date is preserved (via the
`COALESCE` subquery) but experience, warnings and rank are reset to their
column defaults — the stored experience drops from 50 to 0 on
re-registration, contradicting the claimed monotonicity. -/
theorem upsert_resets_experience :
    ((create_or_update_user
        { users := [(7, { experience := 50, rank_level := 2, warnings := 2,
                          join_date := some 11, last_activity := some 11 })] }
        7 "Имя" "Фамилия" 99).2.map
      (fun u => (u.experience, u.join_date, u.warnings, u.rank_level))) =
      some (0, some 11, 0, 1) := by
  decide

/-- Counterexample for C6 as stated: user `200` holds a conversation-admin
grant for chat `1`, yet `warn_user` against them (by admin `100`) succeeds
and increments their warning count — `warn_user` has no target-is-admin
check, unlike kick/ban/mute. -/
theorem warn_ignores_admin_target :
    is_admin ⟨false, [(200, {})], [(100, 1), (200, 1)]⟩ 200
      (2000000001 - 2000000000) = true ∧
    (warn_user true "Неизвестная ошибка" ⟨false, [(200, {})], [(100, 1), (200, 1)]⟩
        2000000001 200 100 "" 1000).1.success = true ∧
    ((warn_user true "Неизвестная ошибка" ⟨false, [(200, {})], [(100, 1), (200, 1)]⟩
        2000000001 200 100 "" 1000).2.lookupUser 200).map
      (fun u => u.warnings) = some 1 := by
  decide

/-- C6 (amended): for every store state and caller, `kick_user`, `ban_user`
and `mute_user` targeting a user who holds a bot-local conversation-admin
grant fail with no state mutation, regardless of the caller's permissions;
`warn_user` carries no such protection (see the counterexample). -/
theorem admin_target_protected (s : DBState) (kickApiOk : Bool)
    (kickApiErrMsg reason : String) (peer_id user_id admin_id duration now : Int)
    (h : is_admin s user_id (peer_id - 2000000000) = true) :
    (kick_user kickApiOk kickApiErrMsg s peer_id user_id admin_id).1.success = false ∧
    (kick_user kickApiOk kickApiErrMsg s peer_id user_id admin_id).2 = s ∧
    (ban_user kickApiOk kickApiErrMsg s peer_id user_id admin_id reason).1.success = false ∧
    (ban_user kickApiOk kickApiErrMsg s peer_id user_id admin_id reason).2 = s ∧
    (mute_user_sys s peer_id user_id admin_id duration reason now).1.success = false ∧
    (mute_user_sys s peer_id user_id admin_id duration reason now).2 = s := by
  refine ⟨?_, ?_, ?_, ?_, ?_, ?_⟩ <;>
    (first
      | (simp only [kick_user]; split_ifs <;> simp_all)
      | (simp only [ban_user]; split_ifs <;> simp_all)
      | (simp only [mute_user_sys]; split_ifs <;> simp_all))

/-- Witness for C6 (amended): kick, ban and mute against the grant-holding
user `200` all fail and leave the store untouched. -/
theorem admin_target_protected_witness :
    (kick_user true "Неизвестная ошибка" ⟨false, [(200, {})], [(200, 1)]⟩
        2000000001 200 100).1.success = false ∧
    (kick_user true "Неизвестная ошибка" ⟨false, [(200, {})], [(200, 1)]⟩
        2000000001 200 100).2 = ⟨false, [(200, {})], [(200, 1)]⟩ ∧
    (ban_user true "Неизвестная ошибка" ⟨false, [(200, {})], [(200, 1)]⟩
        2000000001 200 100 "").1.success = false ∧
    (mute_user_sys ⟨false, [(200, {})], [(200, 1)]⟩
        2000000001 200 100 30 "" 1000).1.success = false :=
  have h := admin_target_protected ⟨false, [(200, {})], [(200, 1)]⟩ true
    "Неизвестная ошибка" "" 2000000001 200 100 30 1000 (by decide)
  ⟨h.1, h.2.1, h.2.2.1, h.2.2.2.2.1⟩

/-- C10: when the reputation store raises on access (`err = true`), the
stored-admin check and the effective permission check both return `false`,
and consequently kick, ban, mute and warn are all refused with no state
mutation. -/
theorem store_error_fails_closed (s : DBState)
    (user_id chat_id peer_id target_id admin_id : Int)
    (action : String) (kickApiOk : Bool) (kickApiErrMsg reason : String)
    (duration now : Int)
    (herr : s.err = true) :
    is_admin s user_id chat_id = false ∧
    check_admin_permissions s user_id peer_id action = false ∧
    (kick_user kickApiOk kickApiErrMsg s peer_id target_id admin_id).1.success = false ∧
    (kick_user kickApiOk kickApiErrMsg s peer_id target_id admin_id).2 = s ∧
    (ban_user kickApiOk kickApiErrMsg s peer_id target_id admin_id reason).1.success = false ∧
    (ban_user kickApiOk kickApiErrMsg s peer_id target_id admin_id reason).2 = s ∧
    (mute_user_sys s peer_id target_id admin_id duration reason now).1.success = false ∧
    (mute_user_sys s peer_id target_id admin_id duration reason now).2 = s ∧
    (warn_user kickApiOk kickApiErrMsg s peer_id target_id admin_id reason now).1.success = false ∧
    (warn_user kickApiOk kickApiErrMsg s peer_id target_id admin_id reason now).2 = s := by
  have hadm : ∀ u c : Int, is_admin s u c = false := fun u c => by simp [is_admin, herr]
  have hperm : ∀ (u p : Int) (a : String), check_admin_permissions s u p a = false := by
    intro u p a
    simp [check_admin_permissions, hadm, get_user_rank, get_user, herr]
  refine ⟨hadm _ _, hperm _ _ _, ?_, ?_, ?_, ?_, ?_, ?_, ?_, ?_⟩ <;>
    simp [kick_user, ban_user, mute_user_sys, warn_user, hperm]

/-- Witness for C10 on the concrete erroring store. -/
theorem store_error_fails_closed_witness :
    is_admin ⟨true, [], []⟩ 1 2 = false ∧
    check_admin_permissions ⟨true, [], []⟩ 1 2000000001 "kick" = false ∧
    (warn_user true "Неизвестная ошибка" ⟨true, [], []⟩
        2000000001 3 4 "" 0).1.success = false :=
  have h := store_error_fails_closed ⟨true, [], []⟩ 1 2 2000000001 3 4 "kick"
    true "Неизвестная ошибка" "" 30 0 (by rfl)
  ⟨h.1, h.2.1, h.2.2.2.2.2.2.2.2.1⟩

/-! ## Claim theorems: rate limiting -/

/-- A call to `_check_flood_control` that returns `true` stamps the caller's
last-seen time. -/
lemma flood_stamp (lim : Int) (s : FloodState) (uid t : Int)
    (h : (check_flood_control lim s uid t).1 = true) :
    (check_flood_control lim s uid t).2.user_last_message uid = some t := by
  unfold check_flood_control at h ⊢
  rcases hl : s.user_last_message uid with _ | last <;> simp [hl] at h ⊢
  split_ifs at h ⊢ with hlt
  simp

/-- C9: after an allowed call at `t1`, a second call within 3 seconds
returns `false` and leaves the stored last-seen timestamp untouched, and a
call at least 3 seconds after `t1` returns `true` and stamps the last-seen
timestamp to the current time. -/
theorem flood_control_interval (s : FloodState) (user_id t1 t2 t3 : Int)
    (h1 : (check_flood_control 3 s user_id t1).1 = true)
    (h2 : t2 - t1 < 3)
    (h3 : 3 ≤ t3 - t1) :
    (check_flood_control 3 (check_flood_control 3 s user_id t1).2 user_id t2).1 = false ∧
    (check_flood_control 3 (check_flood_control 3 s user_id t1).2 user_id t2).2 =
      (check_flood_control 3 s user_id t1).2 ∧
    (check_flood_control 3 (check_flood_control 3 s user_id t1).2 user_id t3).1 = true ∧
    ((check_flood_control 3 (check_flood_control 3 s user_id t1).2 user_id t3).2).user_last_message
      user_id = some t3 := by
  have hs1 := flood_stamp 3 s user_id t1 h1
  have hno : ¬(t3 - t1 < 3) := by omega
  set s1 := (check_flood_control 3 s user_id t1).2 with hdef
  refine ⟨?_, ?_, ?_, ?_⟩
  · unfold check_flood_control
    rw [hs1]
    simp [h2]
  · unfold check_flood_control
    rw [hs1]
    simp [h2]
  · unfold check_flood_control
    rw [hs1]
    simp [hno]
  · unfold check_flood_control
    rw [hs1]
    simp [hno]

/-- Witness for C9: fresh user, calls at times 0, 2 and 3. -/
theorem flood_control_interval_witness :
    (check_flood_control 3 (check_flood_control 3 ⟨fun _ => none⟩ 1 0).2 1 2).1 = false ∧
    (check_flood_control 3 (check_flood_control 3 ⟨fun _ => none⟩ 1 0).2 1 3).1 = true :=
  have h := flood_control_interval ⟨fun _ => none⟩ 1 0 2 3 (by rfl) (by decide) (by decide)
  ⟨h.1, h.2.2.1⟩

/-! ## Claim theorems: experience and rank recomputation -/

/-- Going through a list without `find?` hitting a different key: updating a
user's row commutes with looking that user up. -/
lemma find_update (uid : Int) (f : UserRow → UserRow) :
    ∀ l : List (Int × UserRow),
      ((l.map (fun p => if p.1 = uid then (p.1, f p.2) else p)).find?
          (fun p => p.1 = uid)).map Prod.snd
        = ((l.find? (fun p => p.1 = uid)).map Prod.snd).map f
  | [] => by simp
  | p :: l => by
    by_cases hp : p.1 = uid
    · rw [List.map_cons, List.find?_cons_of_pos _ (by simp [hp]),
        List.find?_cons_of_pos _ (by simp [hp])]
      simp [hp]
    · rw [List.map_cons, List.find?_cons_of_neg _ (by simp [hp]),
        List.find?_cons_of_neg _ (by simp [hp])]
      exact find_update uid f l

/-- `SELECT` after `UPDATE ... WHERE user_id = ?` sees the updated row. -/
lemma lookupUser_updateUser (s : DBState) (uid : Int) (f : UserRow → UserRow) :
    (s.updateUser uid f).lookupUser uid = (s.lookupUser uid).map f :=
  find_update uid f s.users

/-- Row updates do not touch the store's error flag. -/
lemma updateUser_err (s : DBState) (uid : Int) (f : UserRow → UserRow) :
    (s.updateUser uid f).err = s.err := rfl

/-- On a healthy store, `add_experience` is the row update it issues. -/
lemma add_experience_eq (s : DBState) (uid e : Int) (herr : s.err = false) :
    add_experience s uid e
      = s.updateUser uid (fun v => { v with experience := v.experience + e }) := by
  unfold add_experience
  rw [if_neg (by simp [herr])]

/-- On a healthy store with an existing row, `update_rank` rewrites the level
to `computeLevel experience` when it differs and leaves the store unchanged
otherwise. -/
lemma update_rank_fst (s : DBState) (uid : Int) (u : UserRow)
    (herr : s.err = false) (hu : s.lookupUser uid = some u) :
    (update_rank s uid).1 =
      if computeLevel u.experience ≠ u.rank_level
      then s.updateUser uid (fun v => { v with rank_level := computeLevel u.experience })
      else s := by
  unfold update_rank
  rw [if_neg (by simp [herr])]
  split
  · simp_all
  · rename_i user heq
    rw [hu] at heq
    obtain rfl : user = u := by injection heq with h; exact h.symm
    split_ifs <;> simp_all

/-- One pipeline round for claim C8: award experience, then recompute the
rank (`add_experience` followed by `update_rank`). -/
def addExpAndRecompute (user_id : Int) (s : DBState) (amount : Nat) : DBState :=
  (update_rank (add_experience s user_id (amount : Int)) user_id).1

/-- Effect of one award-then-recompute round on the stored row. -/
lemma step_effect (uid : Int) (s : DBState) (u : UserRow) (a : Nat)
    (herr : s.err = false) (hu : s.lookupUser uid = some u) :
    (addExpAndRecompute uid s a).err = false ∧
    (addExpAndRecompute uid s a).lookupUser uid =
      some { u with experience := u.experience + (a : Int),
                    rank_level := computeLevel (u.experience + (a : Int)) } := by
  have hadd := add_experience_eq s uid (a : Int) herr
  have herr1 : (add_experience s uid (a : Int)).err = false := by
    rw [hadd]; exact herr
  have hlk1 : (add_experience s uid (a : Int)).lookupUser uid
      = some { u with experience := u.experience + (a : Int) } := by
    rw [hadd, lookupUser_updateUser, hu]
    rfl
  unfold addExpAndRecompute
  rw [update_rank_fst _ uid _ herr1 hlk1]
  split_ifs with h
  · refine ⟨by rw [updateUser_err]; exact herr1, ?_⟩
    rw [lookupUser_updateUser, hlk1]
    rfl
  · push_neg at h
    refine ⟨herr1, ?_⟩
    rw [hlk1]
    simp only at h
    rw [show computeLevel (u.experience + (a : Int)) = u.rank_level from h]

/-- The descending threshold scan, written as the explicit decision chain. -/
lemma computeLevel_eq (e : Int) :
    computeLevel e =
      if 10000 ≤ e then 10 else if 6000 ≤ e then 9 else if 4000 ≤ e then 8
      else if 2500 ≤ e then 7 else if 1500 ≤ e then 6 else if 1000 ≤ e then 5
      else if 600 ≤ e then 4 else if 300 ≤ e then 3 else if 100 ≤ e then 2 else 1 := by
  by_cases h1 : 10000 ≤ e
  · simp [computeLevel, List.find?, get_rank_info, h1]
  · by_cases h2 : 6000 ≤ e
    · simp [computeLevel, List.find?, get_rank_info, h1, h2]
    · by_cases h3 : 4000 ≤ e
      · simp [computeLevel, List.find?, get_rank_info, h1, h2, h3]
      · by_cases h4 : 2500 ≤ e
        · simp [computeLevel, List.find?, get_rank_info, h1, h2, h3, h4]
        · by_cases h5 : 1500 ≤ e
          · simp [computeLevel, List.find?, get_rank_info, h1, h2, h3, h4, h5]
          · by_cases h6 : 1000 ≤ e
            · simp [computeLevel, List.find?, get_rank_info, h1, h2, h3, h4, h5, h6]
            · by_cases h7 : 600 ≤ e
              · simp [computeLevel, List.find?, get_rank_info, h1, h2, h3, h4, h5, h6, h7]
              · by_cases h8 : 300 ≤ e
                · simp [computeLevel, List.find?, get_rank_info, h1, h2, h3, h4, h5, h6, h7, h8]
                · by_cases h9 : 100 ≤ e
                  · simp [computeLevel, List.find?, get_rank_info, h1, h2, h3, h4, h5, h6, h7,
                      h8, h9]
                  · by_cases h10 : 0 ≤ e
                    · simp [computeLevel, List.find?, get_rank_info, h1, h2, h3, h4, h5, h6,
                        h7, h8, h9, h10]
                    · simp [computeLevel, List.find?, get_rank_info, h1, h2, h3, h4, h5, h6,
                        h7, h8, h9, h10]

/-- The computed level always lies in 1..10. -/
lemma computeLevel_bounds (e : Int) : 1 ≤ computeLevel e ∧ computeLevel e ≤ 10 := by
  rw [computeLevel_eq]
  split_ifs <;> omega

/-- The computed level's own threshold is satisfied. -/
lemma computeLevel_threshold_le (e : Int) (he : 0 ≤ e) :
    (get_rank_info (computeLevel e)).exp_required ≤ e := by
  rw [computeLevel_eq]
  split_ifs <;> simp [get_rank_info] <;> omega

set_option maxHeartbeats 1000000 in
/-- No level up to 10 with a satisfied threshold exceeds the computed level:
`computeLevel` picks the highest satisfied level. -/
lemma computeLevel_greatest (e : Int) (l : Nat) (hl : l ≤ 10)
    (h : (get_rank_info l).exp_required ≤ e) : l ≤ computeLevel e := by
  rw [computeLevel_eq]
  interval_cases l <;> simp [get_rank_info] at h <;> split_ifs <;> omega

/-- Folding award-then-recompute rounds over a list of amounts adds the
amounts up and, for a non-empty list, leaves the rank recomputed from the
final experience. -/
lemma foldl_addExp_effect (uid : Int) (adds : List Nat) :
    ∀ (s : DBState) (u : UserRow), s.err = false → s.lookupUser uid = some u →
      ∃ u' : UserRow,
        (adds.foldl (addExpAndRecompute uid) s).err = false ∧
        (adds.foldl (addExpAndRecompute uid) s).lookupUser uid = some u' ∧
        u'.experience = u.experience + (adds.map (fun a => (a : Int))).sum ∧
        (adds = [] → u' = u) ∧
        (adds ≠ [] → u'.rank_level = computeLevel u'.experience) := by
  induction adds with
  | nil =>
    intro s u herr hu
    exact ⟨u, herr, hu, by simp, fun _ => rfl, by simp⟩
  | cons a rest ih =>
    intro s u herr hu
    obtain ⟨herr1, h1⟩ := step_effect uid s u a herr hu
    obtain ⟨u', he, hl, hsum, hnil, hcons⟩ := ih _ _ herr1 h1
    refine ⟨u', by simpa using he, by simpa using hl, ?_, by simp, fun _ => ?_⟩
    · rw [hsum]
      simp
      ring
    · rcases rest with _ | ⟨b, rest'⟩
      · rw [hnil rfl]
      · exact hcons (by simp)

/-- C8: for every user row on a healthy store and every non-empty sequence of
non-negative experience additions each followed by a rank recomputation, the
final stored experience is the initial experience plus the total of the
additions (so the outcome depends only on that total, not on order or
granularity), and the final `rank_level` is exactly the highest level of the
threshold table `0, 100, 300, 600, 1000, 1500, 2500, 4000, 6000, 10000`
(levels 1..10) whose threshold does not exceed the total experience. -/
theorem rank_from_total_experience (s : DBState) (user_id : Int) (u : UserRow)
    (adds : List Nat)
    (herr : s.err = false)
    (hu : s.lookupUser user_id = some u)
    (hnn : 0 ≤ u.experience)
    (hne : adds ≠ []) :
    ∃ u' : UserRow,
      (adds.foldl (addExpAndRecompute user_id) s).lookupUser user_id = some u' ∧
      u'.experience = u.experience + (adds.map (fun a => (a : Int))).sum ∧
      u'.rank_level = computeLevel u'.experience ∧
      1 ≤ u'.rank_level ∧ u'.rank_level ≤ 10 ∧
      (get_rank_info u'.rank_level).exp_required ≤ u'.experience ∧
      (∀ l : Nat, l ≤ 10 → (get_rank_info l).exp_required ≤ u'.experience →
        l ≤ u'.rank_level) ∧
      (List.range 10).map (fun i => (get_rank_info (i + 1)).exp_required)
        = [0, 100, 300, 600, 1000, 1500, 2500, 4000, 6000, 10000] := by
  obtain ⟨u', herr', hl, hsum, _, hcons⟩ := foldl_addExp_effect user_id adds s u herr hu
  have hrank := hcons hne
  have hexp_nn : 0 ≤ u'.experience := by
    rw [hsum]
    have hs : 0 ≤ (adds.map (fun a => (a : Int))).sum := by
      apply List.sum_nonneg
      intro x hx
      simp at hx
      obtain ⟨a, _, rfl⟩ := hx
      positivity
    omega
  refine ⟨u', hl, hsum, hrank, ?_, ?_, ?_, ?_, by decide⟩
  · rw [hrank]; exact (computeLevel_bounds _).1
  · rw [hrank]; exact (computeLevel_bounds _).2
  · rw [hrank]; exact computeLevel_threshold_le _ hexp_nn
  · intro l h10 hle
    rw [hrank]
    exact computeLevel_greatest _ l h10 hle

/-- Witness for C8: a fresh user awarded 50 then 60 experience ends at
experience 110 and rank 2 (threshold 100). -/
theorem rank_from_total_experience_witness :
    ((([50, 60] : List Nat).foldl (addExpAndRecompute 5)
        { users := [(5, {})] }).lookupUser 5).map
      (fun u => (u.experience, u.rank_level)) = some (110, 2) := by
  obtain ⟨u', hl, hsum, hrank, _⟩ :=
    rank_from_total_experience { users := [(5, {})] } 5 {} [50, 60] rfl rfl
      (by decide) (by decide)
  have he : u'.experience = 110 := by simpa using hsum
  have hr : u'.rank_level = 2 := by rw [hrank, he]; decide
  rw [hl]
  simp [he, hr]

end Fusionbot
